import Mathlib

/-!
Verification of the `c2pa-js` toolkit core (packages/toolkit/src/authoring.rs and
packages/toolkit/src/lib.rs): a shallow embedding of the remote key-vault signer,
the RFC 3161 timestamp-request builder, and the signing orchestrator, together
with theorems settling the specification claims.

Bytes are modelled as `Fin 256`; JavaScript host values as an inductive `JsVal`;
a host callback is a pure function from its argument to a promise outcome
(resolved with a value, or rejected).  Rust panics (`unwrap` on an error) are
modelled by the `Outcome.panicked` constructor; `c2pa::Result` by `Except`.
-/

abbrev Byte := Fin 256

abbrev Bytes := List Byte

/-- Truncating conversion of a natural number to a byte (used only by the DER
serialization stand-in). -/
def byte (n : Nat) : Byte := ⟨n % 256, Nat.mod_lt n (by decide)⟩

/-- The seven signing algorithms of the external `c2pa` crate's `SigningAlg`
enumeration, as listed in the host-facing `Algorithm` type of `lib.rs`. -/
inductive SigningAlg
  | es256
  | es384
  | es512
  | ps256
  | ps384
  | ps512
  | ed25519
deriving DecidableEq, Repr

/-- The digest algorithms of the external `x509_certificate` crate that
`authoring.rs` selects between. -/
inductive DigestAlgorithm
  | sha256
  | sha384
  | sha512
deriving DecidableEq, Repr

/-- Embedding of `get_digest_algorithm` (authoring.rs lines 10-16). -/
def get_digest_algorithm (alg : SigningAlg) : DigestAlgorithm :=
  match alg with
  | .es256 | .ps256 => .sha256
  | .es384 | .ps384 => .sha384
  | .es512 | .ps512 | .ed25519 => .sha512

/-- Embedding of `u64::from_le_bytes` applied to an 8-byte array: the unsigned
little-endian interpretation, byte 0 least significant. -/
def u64_from_le_bytes (b : Fin 8 → Byte) : Nat :=
  ∑ i : Fin 8, (b i).val * 256 ^ (i : Nat)

/-- Embedding of `c2pa::MessageImprint` as built in authoring.rs lines 27-30.
The `hash_algorithm` field holds the digest algorithm whose OID the external
encoder would emit. -/
structure MessageImprint where
  hash_algorithm : DigestAlgorithm
  hashed_message : Bytes
deriving DecidableEq, Repr

/-- Embedding of `c2pa::TimeStampReq` as built in authoring.rs lines 25-35.
`req_policy` and `extensions` are never populated by this code, so their
payload types are abstracted to `Unit`. -/
structure TimeStampReq where
  version : Nat
  message_imprint : MessageImprint
  req_policy : Option Unit
  nonce : Option Nat
  cert_req : Option Bool
  extensions : Option Unit
deriving DecidableEq, Repr

/-- Errors of the external `c2pa` crate that this code can produce or match on
(`c2pa::Error`); only the variants reachable from the embedded code are
modelled. -/
inductive C2paError
  | remoteManifestUrl (url : String)
  | callbackFailure
  | timestampEncode
  | other (msg : String)
deriving DecidableEq, Repr

/-- The `TimeStampReq` record constructed by `rfc3161_time_stamp_message`
(authoring.rs lines 25-35), before DER serialization. -/
def rfc3161_request (alg : SigningAlg) (digest : Bytes) (random : Fin 8 → Byte) :
    TimeStampReq :=
  { version := 1
    message_imprint :=
      { hash_algorithm := get_digest_algorithm alg
        hashed_message := digest }
    req_policy := none
    nonce := some (u64_from_le_bytes random)
    cert_req := some true
    extensions := none }

/-- Big-endian base-256 digits, fuel-bounded (helper for the DER stand-in). -/
def natBEAux : Nat → Nat → Bytes
  | 0, _ => []
  | _ + 1, 0 => []
  | fuel + 1, n => natBEAux fuel (n / 256) ++ [byte n]

/-- Big-endian base-256 digits of a natural number (empty for zero). -/
def natBE (n : Nat) : Bytes := natBEAux 16 n

/-- DER length octets (helper for the DER stand-in). -/
def derLen (n : Nat) : Bytes :=
  if n < 128 then [byte n] else byte (128 + (natBE n).length) :: natBE n

/-- A DER tag-length-value chunk (helper for the DER stand-in). -/
def derChunk (tag : Nat) (content : Bytes) : Bytes :=
  byte tag :: derLen content.length ++ content

/-- DER INTEGER encoding of a non-negative integer (helper for the DER
stand-in). -/
def derInt (n : Nat) : Bytes :=
  let mag := if n = 0 then [byte 0] else natBE n
  let body := if 128 ≤ (mag.headD (byte 0)).val then byte 0 :: mag else mag
  derChunk 2 body

/-- DER BOOLEAN encoding (helper for the DER stand-in). -/
def derBool (b : Bool) : Bytes :=
  derChunk 1 [if b then byte 255 else byte 0]

/-- Content octets of the NIST hash-algorithm OIDs 2.16.840.1.101.3.4.2.{1,2,3}
(helper for the DER stand-in). -/
def digestOid : DigestAlgorithm → Bytes
  | .sha256 => List.map byte [96, 134, 72, 1, 101, 3, 4, 2, 1]
  | .sha384 => List.map byte [96, 134, 72, 1, 101, 3, 4, 2, 2]
  | .sha512 => List.map byte [96, 134, 72, 1, 101, 3, 4, 2, 3]

/-- DER AlgorithmIdentifier for a digest algorithm (helper for the DER
stand-in). -/
def derAlgId (d : DigestAlgorithm) : Bytes :=
  derChunk 48 (derChunk 6 (digestOid d) ++ derChunk 5 [])

/-- Serialization of a `TimeStampReq`.  In the source this is performed by the
external `bcder` crate (`encode_ref().write_encoded(Mode::Der, ...)`, an
out-of-scope collaborator); this executable stand-in emits the same SEQUENCE
shape.  No claim in this development depends on the exact octets. -/
def tsrDer (r : TimeStampReq) : Bytes :=
  derChunk 48
    (derInt r.version
      ++ derChunk 48
        (derAlgId r.message_imprint.hash_algorithm
          ++ derChunk 4 r.message_imprint.hashed_message)
      ++ (match r.nonce with
          | some n => derInt n
          | none => [])
      ++ (match r.cert_req with
          | some b => derBool b
          | none => []))

/-- Embedding of `rfc3161_time_stamp_message` (authoring.rs lines 18-41): build
the request record and DER-serialize it.  Writing DER into an in-memory
`Vec<u8>` cannot fail, so the `c2pa::Result` is always `Ok`. -/
def rfc3161_time_stamp_message (alg : SigningAlg) (digest : Bytes)
    (random : Fin 8 → Byte) : Except C2paError Bytes :=
  .ok (tsrDer (rfc3161_request alg digest random))

/-- A JavaScript host value, as far as the embedded code observes it:
a `Uint8Array`/byte buffer, a number (`8usize.into()`), or `null`. -/
inductive JsVal
  | buffer (bs : Bytes)
  | number (n : Nat)
  | null
deriving DecidableEq, Repr

/-- Outcome of awaiting the promise returned by a host callback: it fulfils
with a value, or it rejects (which also covers a synchronous throw from
`Function::call1`). -/
inductive CbOutcome
  | resolved (v : JsVal)
  | rejected
deriving DecidableEq, Repr

/-- Instrumentation tag for which of the four host callbacks was invoked. -/
inductive CbName
  | signCb
  | digestCb
  | randomCb
  | timestampCb
deriving DecidableEq, Repr

/-- Instrumentation record of one host-callback invocation: which callback,
and the argument it was handed. -/
structure CallRecord where
  cb : CbName
  arg : JsVal
deriving DecidableEq, Repr

/-- Result of running a piece of Rust code that may panic (an `unwrap` of an
error): either a value, or a panic/abort. -/
inductive Outcome (α : Type)
  | ok (a : α)
  | panicked
deriving DecidableEq, Repr

/-- Embedding of `Uint8Array::new(&result).to_vec()`: the JavaScript
`new Uint8Array(x)` coercion.  A buffer yields its bytes; a number `n` yields
`n` zero bytes; `null` yields an empty array. -/
def uint8ArrayToVec : JsVal → Bytes
  | .buffer bs => bs
  | .number n => List.replicate n 0
  | .null => []

/-- Modelled from the spec: `SigningAlg::from_str` lives in the external `c2pa`
crate (not in this repository's `src/`); per §6 of the spec the host-facing
`alg` strings are exactly the seven lowercase variant names, and any other
string fails to parse. -/
def SigningAlg.from_str : String → Option SigningAlg
  | "es256" => some .es256
  | "es384" => some .es384
  | "es512" => some .es512
  | "ps256" => some .ps256
  | "ps384" => some .ps384
  | "ps512" => some .ps512
  | "ed25519" => some .ed25519
  | _ => none

/-- Embedding of the `KeyVaultSigner` struct (authoring.rs lines 43-50).  Each
host callback is a pure function from its argument to a promise outcome. -/
structure KeyVaultSigner where
  sign : JsVal → CbOutcome
  digest : JsVal → CbOutcome
  random : JsVal → CbOutcome
  timestamp : Option (JsVal → CbOutcome)
  alg : SigningAlg
  certs : List Bytes

/-- Embedding of `KeyVaultSigner::new` (authoring.rs lines 53-69).  The
constructor calls `SigningAlg::from_str(alg).unwrap()`, so an unparsable
algorithm string panics. -/
def KeyVaultSigner.new (sign digest random : JsVal → CbOutcome)
    (timestamp : Option (JsVal → CbOutcome)) (certs : List Bytes)
    (alg : String) : Outcome KeyVaultSigner :=
  match SigningAlg.from_str alg with
  | none => .panicked
  | some a =>
    .ok { sign := sign, digest := digest, random := random,
          timestamp := timestamp, alg := a, certs := certs }

/-- Embedding of `KeyVaultSigner::async_callback_with_arg` (authoring.rs lines
71-78), instrumented with the invocation record.  `future.await.unwrap()`
panics when the promise rejects; a fulfilled value is coerced by
`Uint8Array::new` and returned as `Ok`. -/
def KeyVaultSigner.async_callback_with_arg (func : JsVal → CbOutcome)
    (name : CbName) (arg : JsVal) :
    Outcome (Except C2paError Bytes) × List CallRecord :=
  match func arg with
  | .rejected => (.panicked, [⟨name, arg⟩])
  | .resolved v => (.ok (.ok (uint8ArrayToVec v)), [⟨name, arg⟩])

/-- Embedding of `KeyVaultSigner::async_callback_with_buffer` (authoring.rs
lines 80-85): allocate a `Uint8Array` copy of the input bytes and delegate;
the allocation-and-copy is the identity on the byte content. -/
def KeyVaultSigner.async_callback_with_buffer (func : JsVal → CbOutcome)
    (name : CbName) (data : Bytes) :
    Outcome (Except C2paError Bytes) × List CallRecord :=
  KeyVaultSigner.async_callback_with_arg func name (.buffer data)

/-- Embedding of `<KeyVaultSigner as AsyncSigner>::sign` (authoring.rs lines
93-99): digest-callback on the payload (`?` on its result), then sign-callback
on the digest (`unwrap` on its result). -/
def KeyVaultSigner.signOp (s : KeyVaultSigner) (data : Bytes) :
    Outcome (Except C2paError Bytes) × List CallRecord :=
  match KeyVaultSigner.async_callback_with_buffer s.digest .digestCb data with
  | (.panicked, t) => (.panicked, t)
  | (.ok (.error e), t) => (.ok (.error e), t)
  | (.ok (.ok d), t) =>
    match KeyVaultSigner.async_callback_with_buffer s.sign .signCb d with
    | (.panicked, t2) => (.panicked, t ++ t2)
    | (.ok (.error _), t2) => (.panicked, t ++ t2)
    | (.ok (.ok r), t2) => (.ok (.ok r), t ++ t2)

/-- Embedding of `<KeyVaultSigner as AsyncSigner>::reserve_size` (authoring.rs
lines 110-112). -/
def KeyVaultSigner.reserve_size (s : KeyVaultSigner) : Nat :=
  8192 + (s.certs.map List.length).sum

/-- The `Vec<u8> -> [u8; 8]` view behind `random.try_into()` for a byte list
known to have length 8. -/
def bytes8 (r : Bytes) (h : r.length = 8) : Fin 8 → Byte :=
  fun i => r.get (Fin.cast h.symm i)

/-- Embedding of `<KeyVaultSigner as AsyncSigner>::send_timestamp_request`
(authoring.rs lines 114-130).  Without a timestamp callback it returns `None`
immediately; otherwise digest and random callbacks run with `.ok()?`
degradation, `random.try_into().unwrap()` panics unless exactly 8 bytes were
returned, and the timestamp callback's result is returned as `Some`. -/
def KeyVaultSigner.send_timestamp_request (s : KeyVaultSigner)
    (message : Bytes) :
    Outcome (Option (Except C2paError Bytes)) × List CallRecord :=
  match s.timestamp with
  | some tcb =>
    match KeyVaultSigner.async_callback_with_buffer s.digest .digestCb message with
    | (.panicked, t1) => (.panicked, t1)
    | (.ok (.error _), t1) => (.ok none, t1)
    | (.ok (.ok d), t1) =>
      match KeyVaultSigner.async_callback_with_arg s.random .randomCb (.number 8) with
      | (.panicked, t2) => (.panicked, t1 ++ t2)
      | (.ok (.error _), t2) => (.ok none, t1 ++ t2)
      | (.ok (.ok r), t2) =>
        if h : r.length = 8 then
          match rfc3161_time_stamp_message s.alg d (bytes8 r h) with
          | .error _ => (.ok none, t1 ++ t2)
          | .ok body =>
            match KeyVaultSigner.async_callback_with_buffer tcb .timestampCb body with
            | (.panicked, t3) => (.panicked, t1 ++ t2 ++ t3)
            | (.ok res, t3) => (.ok (some res), t1 ++ t2 ++ t3)
        else
          (.panicked, t1 ++ t2)
  | none => (.ok none, [])

/-- Claim C7: the digest-algorithm selector is a total pure function matching
the table: PS256 and ES256 map to Sha256; PS384 and ES384 map to Sha384; PS512,
ES512 and ED25519 map to Sha512. -/
theorem get_digest_algorithm_table :
    get_digest_algorithm .ps256 = .sha256 ∧
    get_digest_algorithm .es256 = .sha256 ∧
    get_digest_algorithm .ps384 = .sha384 ∧
    get_digest_algorithm .es384 = .sha384 ∧
    get_digest_algorithm .ps512 = .sha512 ∧
    get_digest_algorithm .es512 = .sha512 ∧
    get_digest_algorithm .ed25519 = .sha512 := by
  repeat constructor

/-- Claim C2: for every supported signing algorithm, digest byte string and
8-byte random input, the built `TimeStampReq` has version 1, `cert_req` TRUE,
`req_policy` absent, `extensions` absent, a nonce equal to the unsigned 64-bit
little-endian interpretation of the 8 random bytes, and a hash algorithm
selected from the signing algorithm; in particular bytes 01..08 yield nonce
0x0807060504030201 = 578437695752307201. -/
theorem rfc3161_request_fields (alg : SigningAlg) (digest : Bytes)
    (random : Fin 8 → Byte) :
    (rfc3161_request alg digest random).version = 1 ∧
    (rfc3161_request alg digest random).cert_req = some true ∧
    (rfc3161_request alg digest random).req_policy = none ∧
    (rfc3161_request alg digest random).extensions = none ∧
    (rfc3161_request alg digest random).nonce =
      some (u64_from_le_bytes random) ∧
    (rfc3161_request alg digest random).message_imprint.hash_algorithm =
      get_digest_algorithm alg ∧
    (rfc3161_request .es256 (List.replicate 32 0)
        (fun i => byte (i.val + 1))).nonce = some 578437695752307201 := by
  refine ⟨rfl, rfl, rfl, rfl, rfl, rfl, ?_⟩
  show some (u64_from_le_bytes fun i => byte (i.val + 1)) = some 578437695752307201
  decide

/-- Claim C10: the RFC 3161 builder does not validate the digest length: for
every digest byte string of any length it succeeds and copies the bytes
verbatim into `message_imprint.hashed_message`. -/
theorem rfc3161_no_digest_length_validation (alg : SigningAlg) (digest : Bytes)
    (random : Fin 8 → Byte) :
    (∃ body, rfc3161_time_stamp_message alg digest random = .ok body) ∧
    (rfc3161_request alg digest random).message_imprint.hashed_message =
      digest := by
  exact ⟨⟨tsrDer (rfc3161_request alg digest random), rfl⟩, rfl⟩

/-- A host callback that always fulfils with the given byte buffer. -/
def cbConst (bs : Bytes) : JsVal → CbOutcome := fun _ => .resolved (.buffer bs)

/-- A host callback whose promise always rejects. -/
def cbRej : JsVal → CbOutcome := fun _ => .rejected

/-- A concrete signer with no timestamp callback: the digest callback yields
`[7]` and the sign callback yields `[9, 9]`. -/
def s1 : KeyVaultSigner :=
  { sign := cbConst [9, 9], digest := cbConst [7], random := cbConst [],
    timestamp := none, alg := .es256, certs := [] }

/-- A concrete signer with a timestamp callback whose random callback fulfils
with only 7 bytes. -/
def s5 : KeyVaultSigner :=
  { sign := cbConst [], digest := cbConst [1, 2],
    random := cbConst [1, 2, 3, 4, 5, 6, 7],
    timestamp := some (cbConst []), alg := .es256, certs := [] }

set_option maxRecDepth 4000 in
/-- Claim C8: `reserve_size` equals 8192 plus the summed byte lengths of the
certificate chain; in particular certificates of lengths 1200 and 1400 give
10792. -/
theorem reserve_size_eq (s : KeyVaultSigner) :
    s.reserve_size = 8192 + (s.certs.map List.length).sum ∧
    ({ s1 with certs := [List.replicate 1200 0, List.replicate 1400 0] }
        : KeyVaultSigner).reserve_size = 10792 := by
  refine ⟨rfl, ?_⟩
  unfold KeyVaultSigner.reserve_size
  rw [List.map_cons, List.map_cons, List.map_nil,
      List.length_replicate, List.length_replicate]
  decide

/-- Claim C1: when both callbacks fulfil with buffers, the signer's sign
operation invokes the digest callback exactly once on the payload, then the
sign callback exactly once on the digest callback's output, in that order, and
returns the sign callback's output. -/
theorem signOp_digest_then_sign (s : KeyVaultSigner) (data d r : Bytes)
    (hd : s.digest (.buffer data) = .resolved (.buffer d))
    (hs : s.sign (.buffer d) = .resolved (.buffer r)) :
    s.signOp data =
      (.ok (.ok r), [⟨.digestCb, .buffer data⟩, ⟨.signCb, .buffer d⟩]) := by
  simp [KeyVaultSigner.signOp, KeyVaultSigner.async_callback_with_buffer,
        KeyVaultSigner.async_callback_with_arg, hd, hs, uint8ArrayToVec]

/-- Witness for C1 at the concrete signer `s1` and payload `[1, 2]`. -/
theorem signOp_digest_then_sign_witness :
    s1.signOp [1, 2] =
      (.ok (.ok [9, 9]), [⟨.digestCb, .buffer [1, 2]⟩, ⟨.signCb, .buffer [7]⟩]) :=
  signOp_digest_then_sign s1 [1, 2] [7] [9, 9] rfl rfl

/-- Claim C6: a signer constructed without a timestamp callback answers every
`send_timestamp_request` with the outer `None` and invokes no host callback. -/
theorem send_timestamp_request_absent_without_cb (s : KeyVaultSigner)
    (m : Bytes) (h : s.timestamp = none) :
    s.send_timestamp_request m = (.ok none, []) := by
  simp [KeyVaultSigner.send_timestamp_request, h]

/-- Witness for C6 at the concrete signer `s1` and message `[3]`. -/
theorem send_timestamp_request_absent_without_cb_witness :
    s1.send_timestamp_request [3] = (.ok none, []) :=
  send_timestamp_request_absent_without_cb s1 [3] rfl

/-- Counterexample to claim C5 as stated: at the concrete signer `s5`, whose
random callback fulfils with 7 bytes, `send_timestamp_request` panics on
`try_into().unwrap()`; a panic is not the "absent" result. -/
theorem send_timestamp_request_short_random_counterexample :
    s5.send_timestamp_request [0] =
      (.panicked, [⟨.digestCb, .buffer [0]⟩, ⟨.randomCb, .number 8⟩]) ∧
    (Outcome.panicked : Outcome (Option (Except C2paError Bytes))) ≠
      .ok none := by
  exact ⟨rfl, fun h => Outcome.noConfusion h⟩

/-- Claim C5 as amended: if the timestamp callback is present, the digest
callback fulfils with a buffer and the random callback fulfils with a buffer
of length other than 8, then `send_timestamp_request` panics (the
`try_into().unwrap()` aborts) instead of returning "absent". -/
theorem send_timestamp_request_short_random_panics (s : KeyVaultSigner)
    (m d r : Bytes) (tcb : JsVal → CbOutcome)
    (ht : s.timestamp = some tcb)
    (hd : s.digest (.buffer m) = .resolved (.buffer d))
    (hr : s.random (.number 8) = .resolved (.buffer r))
    (hlen : r.length ≠ 8) :
    s.send_timestamp_request m =
      (.panicked, [⟨.digestCb, .buffer m⟩, ⟨.randomCb, .number 8⟩]) := by
  simp [KeyVaultSigner.send_timestamp_request, ht,
        KeyVaultSigner.async_callback_with_buffer,
        KeyVaultSigner.async_callback_with_arg, hd, hr, uint8ArrayToVec, hlen]

/-- Witness for amended C5 at the concrete signer `s5`. -/
theorem send_timestamp_request_short_random_panics_witness :
    s5.send_timestamp_request [0] =
      (.panicked, [⟨.digestCb, .buffer [0]⟩, ⟨.randomCb, .number 8⟩]) :=
  send_timestamp_request_short_random_panics s5 [0] [1, 2]
    [1, 2, 3, 4, 5, 6, 7] (cbConst []) rfl rfl rfl (by decide)

/-- Counterexample to claim C4 as stated: a rejecting callback makes the shim
helper panic (`future.await.unwrap()`), which is not the `CallbackFailure`
error result. -/
theorem async_callback_rejection_counterexample :
    KeyVaultSigner.async_callback_with_arg cbRej .signCb (.buffer []) =
      (.panicked, [⟨.signCb, .buffer []⟩]) ∧
    (Outcome.panicked : Outcome (Except C2paError Bytes)) ≠
      .ok (.error C2paError.callbackFailure) := by
  exact ⟨rfl, fun h => Outcome.noConfusion h⟩

/-- Claim C4 as amended: a callback whose promise rejects makes the shim
helper panic (abort) rather than return a `CallbackFailure` error, and a
callback that fulfils with any value has that value coerced to bytes by the
`Uint8Array` conversion and returned as `Ok`. -/
theorem async_callback_rejection_and_coercion (func : JsVal → CbOutcome)
    (name : CbName) (arg : JsVal) :
    (func arg = .rejected →
      KeyVaultSigner.async_callback_with_arg func name arg =
        (.panicked, [⟨name, arg⟩])) ∧
    (∀ v, func arg = .resolved v →
      KeyVaultSigner.async_callback_with_arg func name arg =
        (.ok (.ok (uint8ArrayToVec v)), [⟨name, arg⟩])) := by
  constructor
  · intro h
    simp [KeyVaultSigner.async_callback_with_arg, h]
  · intro v h
    simp [KeyVaultSigner.async_callback_with_arg, h]

/-- Witness for amended C4: one rejecting callback (panic) and one callback
fulfilling with a non-buffer value (`null`, coerced to an empty byte list). -/
theorem async_callback_rejection_and_coercion_witness :
    KeyVaultSigner.async_callback_with_arg cbRej .signCb (.buffer [1]) =
      (.panicked, [⟨.signCb, .buffer [1]⟩]) ∧
    KeyVaultSigner.async_callback_with_arg (fun _ => .resolved .null)
        .digestCb (.number 2) = (.ok (.ok []), [⟨.digestCb, .number 2⟩]) :=
  ⟨(async_callback_rejection_and_coercion cbRej .signCb (.buffer [1])).1 rfl,
   (async_callback_rejection_and_coercion (fun _ => .resolved .null)
      .digestCb (.number 2)).2 .null rfl⟩

/-- A parsed JSON document (`serde_json::Value` of the external `serde_json`
crate), kept abstract as its raw text: the embedded code only passes it
through to the manifest. -/
structure Json where
  raw : String
deriving DecidableEq, Repr

/-- The slice of the external `c2pa::Ingredient` that `sign_asset_buffer`
observes: whether (and which) manifest data the decoded ingredient carries. -/
structure Ingredient where
  manifest_data : Option Bytes
deriving DecidableEq, Repr

/-- The slice of the external `c2pa::Manifest` that `sign_asset_buffer`
populates: generator string, labeled assertions, thumbnail, and optional
parent ingredient. -/
structure Manifest where
  generator : String
  assertions : List (String × Json)
  thumbnail : Option (String × Bytes)
  parent : Option Ingredient
deriving DecidableEq, Repr

/-- Embedding of `c2pa::Manifest::new` as called at lib.rs line 194: a fresh
manifest with the given generator and nothing else. -/
def Manifest.new (generator : String) : Manifest :=
  { generator := generator, assertions := [], thumbnail := none,
    parent := none }

/-- Modelled from the spec: the repository's `error.rs` (module `error`) is
not under `src/`.  The variants are those `lib.rs` constructs (`SerdeInput`,
`JavaScriptConversion`, `C2pa`) together with the `UnsupportedAlgorithm` kind
that §7 of the spec lists. -/
inductive Error
  | serdeInput
  | javaScriptConversion
  | unsupportedAlgorithm
  | c2pa (e : C2paError)
deriving DecidableEq, Repr

/-- The external C2PA collaborator operations `sign_asset_buffer` delegates
to: JSON parsing (`serde_json::from_str`), ingredient decoding
(`Ingredient::from_memory_async`) and manifest embedding
(`Manifest::embed_from_memory_async`, which drives the signer and is the only
place host callbacks can be invoked, hence its invocation trace). -/
structure C2paEnv where
  parseJson : String → Option Json
  parseIngredient : String → Bytes → Except C2paError Ingredient
  embed : String → Bytes → Manifest → KeyVaultSigner →
    Except C2paError Bytes × List CallRecord

/-- The fixed generator identifier of lib.rs line 148. -/
def GENERATOR : String := "azure_media_provenance/0.1"

/-- The host-facing `SigningInfo` descriptor (lib.rs lines 150-181), with the
JavaScript `Map` of assertions read off in insertion order as label/value
string pairs. -/
structure SigningInfo where
  alg : String
  certificates : List Bytes
  assertions : Option (List (String × String))
  sign : JsVal → CbOutcome
  timestamp : Option (JsVal → CbOutcome)
  digest : JsVal → CbOutcome
  random : JsVal → CbOutcome
  thumbnail : Option Bytes
  thumbnail_format : String

/-- Embedding of the assertion loop of `sign_asset_buffer` (lib.rs lines
196-205): each value string is parsed as JSON (a parse failure maps to
`JavaScriptConversion`) and the labeled assertion is appended in insertion
order. -/
def addAssertions (env : C2paEnv) (m : Manifest) :
    List (String × String) → Except Error Manifest
  | [] => .ok m
  | (key, value) :: rest =>
    match env.parseJson value with
    | none => .error .javaScriptConversion
    | some j =>
      addAssertions env
        { m with assertions := m.assertions ++ [(key, j)] } rest

/-- Embedding of the manifest-assembly phase of `sign_asset_buffer` (lib.rs
lines 194-223): fresh manifest, assertions, thumbnail, then the decoded
source ingredient is attached as parent exactly when it carries manifest
data. -/
def buildManifest (env : C2paEnv) (info : SigningInfo) (asset : Bytes)
    (mime : String) : Except Error Manifest :=
  match addAssertions env (Manifest.new GENERATOR)
      (info.assertions.getD []) with
  | .error e => .error e
  | .ok m1 =>
    let m2 :=
      match info.thumbnail with
      | some th => { m1 with thumbnail := some (info.thumbnail_format, th) }
      | none => m1
    match env.parseIngredient mime asset with
    | .error e => .error (.c2pa e)
    | .ok ing =>
      if ing.manifest_data.isSome then .ok { m2 with parent := some ing }
      else .ok m2

/-- Embedding of `sign_asset_buffer` (lib.rs lines 183-249): assemble the
manifest, construct the `KeyVaultSigner` (whose `new` panics on an unsupported
algorithm string), and hand both to the embedding collaborator. -/
def sign_asset_buffer (env : C2paEnv) (info : SigningInfo) (asset : Bytes)
    (mime : String) : Outcome (Except Error Bytes) × List CallRecord :=
  match buildManifest env info asset mime with
  | .error e => (.ok (.error e), [])
  | .ok m =>
    match KeyVaultSigner.new info.sign info.digest info.random info.timestamp
        info.certificates info.alg with
    | .panicked => (.panicked, [])
    | .ok signer =>
      match env.embed mime asset m signer with
      | (.error e, t) => (.ok (.error (.c2pa e)), t)
      | (.ok data, t) => (.ok (.ok data), t)

/-- Adding assertions never touches the parent field. -/
theorem addAssertions_parent (env : C2paEnv) (l : List (String × String))
    (m m' : Manifest) (h : addAssertions env m l = .ok m') :
    m'.parent = m.parent := by
  induction l generalizing m with
  | nil =>
    simp only [addAssertions] at h
    cases h
    rfl
  | cons kv rest ih =>
    obtain ⟨key, value⟩ := kv
    simp only [addAssertions] at h
    cases hp : env.parseJson value with
    | none =>
      rw [hp] at h
      exact Except.noConfusion h
    | some j =>
      rw [hp] at h
      dsimp only at h
      have h2 := ih _ h
      exact h2

/-- Claim C9: the decoded source ingredient becomes the parent of the freshly
built manifest exactly when it carries manifest data; otherwise the manifest
has no parent. -/
theorem buildManifest_parent_iff (env : C2paEnv) (info : SigningInfo)
    (asset : Bytes) (mime : String) (ing : Ingredient) (m : Manifest)
    (hi : env.parseIngredient mime asset = .ok ing)
    (hm : buildManifest env info asset mime = .ok m) :
    m.parent = if ing.manifest_data.isSome then some ing else none := by
  unfold buildManifest at hm
  cases ha : addAssertions env (Manifest.new GENERATOR)
      (info.assertions.getD []) with
  | error e =>
    rw [ha] at hm
    exact Except.noConfusion hm
  | ok m1 =>
    rw [ha, hi] at hm
    dsimp only at hm
    have hp1 : m1.parent = none := addAssertions_parent env _ _ _ ha
    cases hmd : ing.manifest_data.isSome with
    | true =>
      rw [hmd] at hm
      simp only [if_true] at hm
      simp only [Except.ok.injEq] at hm
      subst hm
      simp
    | false =>
      rw [hmd] at hm
      simp only [Bool.false_eq_true, if_false] at hm
      simp only [Except.ok.injEq] at hm
      subst hm
      simp only [Bool.false_eq_true, if_false]
      cases hth : info.thumbnail with
      | none => simpa [hth] using hp1
      | some th => simpa [hth] using hp1

/-- An environment whose ingredient decoder finds no manifest data. -/
def envNoManifest : C2paEnv :=
  { parseJson := fun s => some ⟨s⟩
    parseIngredient := fun _ _ => .ok ⟨none⟩
    embed := fun _ _ _ _ => (.ok [], []) }

/-- An environment whose ingredient decoder finds manifest data `[1]`. -/
def envWithManifest : C2paEnv :=
  { parseJson := fun s => some ⟨s⟩
    parseIngredient := fun _ _ => .ok ⟨some [1]⟩
    embed := fun _ _ _ _ => (.ok [], []) }

/-- A host-facing descriptor whose `alg` string is not one of the seven
supported variants. -/
def infoBadAlg : SigningInfo :=
  { alg := "rsa1024", certificates := [], assertions := none,
    sign := cbConst [], timestamp := none, digest := cbConst [],
    random := cbConst [], thumbnail := none, thumbnail_format := "" }

/-- A host-facing descriptor with the supported `alg` string "es256". -/
def infoEs256 : SigningInfo :=
  { infoBadAlg with alg := "es256" }

/-- Witness for C9, applied at an ingredient that carries manifest data: the
built manifest's parent is that ingredient. -/
theorem buildManifest_parent_iff_witness :
    (Manifest.mk GENERATOR [] none (some ⟨some [1]⟩)).parent =
      if (Ingredient.mk (some [1])).manifest_data.isSome
      then some (Ingredient.mk (some [1])) else none :=
  buildManifest_parent_iff envWithManifest infoEs256 [] "image/jpeg"
    ⟨some [1]⟩ (Manifest.mk GENERATOR [] none (some ⟨some [1]⟩)) rfl rfl

/-- Counterexample to claim C3 as stated: with the unsupported algorithm
string "rsa1024" the orchestrator panics (`SigningAlg::from_str(alg).unwrap()`
aborts) without invoking any host callback; a panic is not an
`UnsupportedAlgorithm` error result. -/
theorem sign_asset_buffer_bad_alg_counterexample :
    sign_asset_buffer envNoManifest infoBadAlg [] "image/jpeg" =
      (.panicked, []) ∧
    (Outcome.panicked : Outcome (Except Error Bytes)) ≠
      .ok (.error Error.unsupportedAlgorithm) := by
  exact ⟨rfl, fun h => Outcome.noConfusion h⟩

/-- Claim C3 as amended: for every `alg` string that is not one of the seven
supported variants, signing panics (aborts) before any host callback is
invoked, instead of returning an `UnsupportedAlgorithm` error. -/
theorem sign_asset_buffer_bad_alg_panics (env : C2paEnv) (info : SigningInfo)
    (asset : Bytes) (mime : String) (m : Manifest)
    (halg : SigningAlg.from_str info.alg = none)
    (hm : buildManifest env info asset mime = .ok m) :
    sign_asset_buffer env info asset mime = (.panicked, []) := by
  unfold sign_asset_buffer
  rw [hm]
  unfold KeyVaultSigner.new
  rw [halg]

/-- Witness for amended C3 at the concrete descriptor `infoBadAlg`. -/
theorem sign_asset_buffer_bad_alg_panics_witness :
    sign_asset_buffer envNoManifest infoBadAlg [] "image/jpeg" =
      (.panicked, []) :=
  sign_asset_buffer_bad_alg_panics envNoManifest infoBadAlg [] "image/jpeg"
    (Manifest.mk GENERATOR [] none none) rfl rfl
